import Mathlib

/-!
Verification of the jiratimes repository (two JavaScript variants of the same
script: `src/index.js` and `src/unnamed/part_000`, below "IndexJs" and "P0").

The embedding models JavaScript values explicitly where their semantics
matter:
* a nullable JS number is `JNum` (`null`, `NaN`, or an integer — all the
  numbers the scripts produce are integers: date differences in whole
  minutes/days);
* a nullable JS string is `Option String`; JS truthiness of such a value is
  `jsStrTruthy` (`null`/`undefined` and `""` are falsy);
* timestamps are parsed by `parseISO`, modelling date-fns `parseISO` on the
  ISO-8601 subset the scripts use (`YYYY-MM-DD`, optionally
  `THH:MM:SS(.mmm)` and a trailing `Z`), returning milliseconds since the
  Unix epoch (`none` for an unparseable string, modelling an Invalid Date);
  the runtime timezone is assumed to be UTC, so date-only strings denote
  UTC midnight;
* date-fns `differenceInMinutes`/`differenceInDays` truncate toward zero
  (the default `trunc` rounding of a difference of valid fixed-offset
  dates), embedded with `Int.tdiv`.

A program-level peculiarity of `src/unnamed/part_000`: line 187 of its
issue-processing loop evaluates `AFFECTED_CUSTOMERS_FIELD_ID`, an
identifier declared nowhere in the file, which throws a ReferenceError on
every iteration — before the per-issue changelog fetch and the
row-building code. The program-level model (`p0ProcessIssue`,
`p0GetAllIssuesRun`, `p0Main`) carries this error path; definitions over
the row-building text itself (`p0BuildRow` and the fragments it uses)
embed that text as written, and are marked as dead code where they are.
-/

/-- A JavaScript number-or-null value as stored in a report row:
`null`, `NaN`, or an actual (integer) number. -/
inductive JNum where
  | null
  | nan
  | num (n : Int)
deriving DecidableEq, Repr

/-- JS truthiness of a nullable string: `null`/`undefined` and `""` are falsy. -/
def jsStrTruthy : Option String → Bool
  | none => false
  | some s => s != ""

/-- JS `v || d` for a nullable string `v` and default `d`. -/
def jsOrStr (v : Option String) (d : String) : String :=
  match v with
  | none => d
  | some s => if s = "" then d else s

/-- JS `v || null` for a nullable string: normalizes a falsy value to null. -/
def jsOrNull (v : Option String) : Option String :=
  match v with
  | none => none
  | some s => if s = "" then none else some s

/-- Digit value of a character, `none` if it is not a decimal digit. -/
def digitVal (c : Char) : Option Nat :=
  if '0' ≤ c ∧ c ≤ '9' then some (c.toNat - 48) else none

/-- Read exactly two decimal digits. -/
def digits2 : List Char → Option Nat
  | [a, b] =>
    match digitVal a, digitVal b with
    | some x, some y => some (10 * x + y)
    | _, _ => none
  | _ => none

/-- Read exactly four decimal digits. -/
def digits4 : List Char → Option Nat
  | [a, b, c, d] =>
    match digitVal a, digitVal b, digitVal c, digitVal d with
    | some x, some y, some z, some w => some (1000 * x + 100 * y + 10 * z + w)
    | _, _, _, _ => none
  | _ => none

/-- Whether a (proleptic Gregorian) year is a leap year. -/
def isLeapYear (y : Nat) : Bool :=
  (y % 4 = 0 && y % 100 != 0) || y % 400 = 0

/-- Days in a month of a given year (month 1–12). -/
def daysInMonth (y m : Nat) : Nat :=
  if m = 2 then (if isLeapYear y then 29 else 28)
  else if m = 4 ∨ m = 6 ∨ m = 9 ∨ m = 11 then 30
  else 31

/-- Days from the Unix epoch (1970-01-01) to the given civil date
(Howard Hinnant's `days_from_civil`, with C-style truncating division). -/
def daysFromCivil (y : Int) (m d : Nat) : Int :=
  let y' : Int := if m ≤ 2 then y - 1 else y
  let era : Int := Int.tdiv (if 0 ≤ y' then y' else y' - 399) 400
  let yoe : Int := y' - era * 400
  let mp : Nat := (m + 9) % 12
  let doy : Int := Int.ofNat ((153 * mp + 2) / 5 + (d - 1))
  let doe : Int := yoe * 365 + Int.tdiv yoe 4 - Int.tdiv yoe 100 + doy
  era * 146097 + doe - 719468

/-- Parse an optional fractional-seconds part `.mmm`, returning the
milliseconds and the remaining characters. -/
def parseFrac : List Char → Option (Nat × List Char)
  | '.' :: a :: b :: c :: rest =>
    match digitVal a, digitVal b, digitVal c with
    | some x, some y, some z => some (100 * x + 10 * y + z, rest)
    | _, _, _ => none
  | rest => some (0, rest)

/-- Accept an optional trailing `Z` (UTC designator) and nothing else. -/
def parseZone : List Char → Bool
  | [] => true
  | ['Z'] => true
  | _ => false

/-- Parse a time-of-day `HH:MM:SS` with optional `.mmm` and optional `Z`,
returning milliseconds within the day. -/
def parseTime (l : List Char) : Option Nat :=
  match l with
  | h1 :: h2 :: ':' :: m1 :: m2 :: ':' :: s1 :: s2 :: rest =>
    match digits2 [h1, h2], digits2 [m1, m2], digits2 [s1, s2] with
    | some hh, some mm, some ss =>
      if hh ≤ 23 ∧ mm ≤ 59 ∧ ss ≤ 59 then
        match parseFrac rest with
        | some (ms, rest') =>
          if parseZone rest' then
            some (hh * 3600000 + mm * 60000 + ss * 1000 + ms)
          else none
        | none => none
      else none
    | _, _, _ => none
  | _ => none

/-- Model of date-fns `parseISO` on the subset used by the scripts:
`YYYY-MM-DD`, optionally followed by `THH:MM:SS`, optional `.mmm`
milliseconds and an optional `Z`. Returns milliseconds since the Unix
epoch (UTC runtime assumed), `none` for anything unparseable or with
out-of-range fields (an Invalid Date in JS). -/
def parseISO (s : String) : Option Int :=
  match s.data with
  | y1 :: y2 :: y3 :: y4 :: '-' :: mo1 :: mo2 :: '-' :: d1 :: d2 :: rest =>
    match digits4 [y1, y2, y3, y4], digits2 [mo1, mo2], digits2 [d1, d2] with
    | some y, some mo, some d =>
      if 1 ≤ mo ∧ mo ≤ 12 ∧ 1 ≤ d ∧ d ≤ daysInMonth y mo then
        let dayMs : Int := daysFromCivil (Int.ofNat y) mo d * 86400000
        match rest with
        | [] => some dayMs
        | 'T' :: tl =>
          match parseTime tl with
          | some ms => some (dayMs + Int.ofNat ms)
          | none => none
        | _ => none
      else none
    | _, _, _ => none
  | _ => none

/-- date-fns `differenceInMinutes(a, b)` on valid fixed-offset dates:
the difference in whole minutes, truncated toward zero. -/
def differenceInMinutes (a b : Int) : Int :=
  Int.tdiv (a - b) 60000

/-- date-fns `differenceInDays(a, b)` on valid fixed-offset dates:
the number of full days, truncated toward zero. -/
def differenceInDays (a b : Int) : Int :=
  Int.tdiv (a - b) 86400000

/-- JS `a <= b` on two dates given as parse results: `false` whenever either
is an Invalid Date (`NaN` comparisons are false). -/
def jsDateLe (a b : Option Int) : Bool :=
  match a, b with
  | some x, some y => x ≤ y
  | _, _ => false

/-- One field change of a changelog history entry: `item.field` and
`item.toString` (the new value as a string). -/
structure FieldChange where
  field : String
  toString : String
deriving DecidableEq, Repr

/-- One changelog history entry: its timestamp string and its field changes.
`src/index.js` reads these from `issue.changelog.histories`,
`src/unnamed/part_000` from the per-issue changelog endpoint. -/
structure HistoryEntry where
  created : String
  items : List FieldChange
deriving DecidableEq, Repr

/-- One step of the transition scan (`src/index.js` lines 93–104,
`src/unnamed/part_000` lines 197–208): for a field change `item` of the
entry timestamped `created`, record `created` for a status whose
accumulator is still JS-falsy (`null` or `""`) when `item` is a status
change to that status. -/
def extractStep (status1 status2 created : String)
    (acc : Option String × Option String) (item : FieldChange) :
    Option String × Option String :=
  if item.field == "status" then
    let a1 := if item.toString == status1 && !jsStrTruthy acc.1 then some created else acc.1
    let a2 := if item.toString == status2 && !jsStrTruthy acc.2 then some created else acc.2
    (a1, a2)
  else acc

/-- Scan a single history entry's items (inner loop of the extraction). -/
def extractEntry (status1 status2 : String)
    (acc : Option String × Option String) (h : HistoryEntry) :
    Option String × Option String :=
  h.items.foldl (extractStep status1 status2 h.created) acc

/-- The transition extraction: scan all history entries in order, recording
`status1Time` and `status2Time` first-write-wins (with JS truthiness on the
accumulators, as in the source). Identical in both files. -/
def extractTimes (histories : List HistoryEntry) (status1 status2 : String) :
    Option String × Option String :=
  histories.foldl (extractEntry status1 status2) (none, none)

/-- The specification's description of the extraction (spec §4.3 / §8,
written from the spec's words, to be compared with `extractTimes`): the
timestamp of the first history entry containing a status field-change whose
new value equals `st`. -/
def specFirstTransition (histories : List HistoryEntry) (st : String) :
    Option String :=
  (histories.find? fun h =>
    h.items.any fun i => i.field == "status" && i.toString == st).map
    (fun h => h.created)

/-- The script configuration block (module-level constants in both files:
`status1`, `status2`, `endDate`, `useCreatedDate`). -/
structure Config where
  status1 : String
  status2 : String
  endDate : String
  useCreatedDate : Bool
deriving DecidableEq, Repr

/-- The configuration constants of `src/index.js` (lines 26–30). -/
def indexConfig : Config :=
  { status1 := "Backlog", status2 := "In Progress",
    endDate := "2025-01-01", useCreatedDate := true }

/-- The configuration constants of `src/unnamed/part_000` (lines 38–42).
Note `endDate` is `2025-30-09`, which has no month 30 and is unparseable. -/
def p0Config : Config :=
  { status1 := "01 To Write", status2 := "08 Blocked",
    endDate := "2025-30-09", useCreatedDate := true }

/-- The per-issue derived times: `startTime`, `status2Time` and the three
numeric fields as JS values. -/
structure TimesResult where
  startTime : Option String
  status2Time : Option String
  backlogDays : JNum
  timeSpentMinutes : JNum
  timeSpentDays : JNum
deriving DecidableEq, Repr

/-- `startTime` selection, identical in both files: the created date when
`useCreatedDate`, otherwise `status1Time` when that is JS-truthy, else null. -/
def selectStartTime (cfg : Config) (created status1Time : Option String) :
    Option String :=
  if cfg.useCreatedDate then created
  else if jsStrTruthy status1Time then status1Time else none

/-- `backlogDays` computation, identical in both files (`src/index.js`
lines 111–112, `src/unnamed/part_000` lines 215–216):
`startTime ? differenceInDays(now, parseISO(startTime)) : null`.
An unparseable but truthy `startTime` yields `NaN` (neither file guards
this value with `isNaN`). -/
def backlogDaysOf (now : Int) (startTime : Option String) : JNum :=
  if jsStrTruthy startTime then
    match parseISO (startTime.getD "") with
    | some t => JNum.num (differenceInDays now t)
    | none => JNum.nan
  else JNum.null

/-- The time-spent pair of `src/index.js` (lines 117–128), guarded by
`if (startTime && status2Time)` and `if (status2Dt <= parseISO(endDate))`
(a comparison against an Invalid Date is false). When `startTime` is truthy
but unparseable and both guards pass, the differences are `NaN`. -/
def indexTimeSpent (endDate : String) (startTime status2Time : Option String) :
    JNum × JNum :=
  if jsStrTruthy startTime && jsStrTruthy status2Time then
    match parseISO (status2Time.getD ""), parseISO endDate with
    | some b, some e =>
      if b ≤ e then
        match parseISO (startTime.getD "") with
        | some a =>
          (JNum.num (differenceInMinutes b a), JNum.num (differenceInDays b a))
        | none => (JNum.nan, JNum.nan)
      else (JNum.null, JNum.null)
    | _, _ => (JNum.null, JNum.null)
  else (JNum.null, JNum.null)

/-- The per-issue timing computation of `src/index.js` (lines 88–128):
extraction, start-time selection, `backlogDays` and the time-spent pair. -/
def indexComputeTimes (cfg : Config) (now : Int) (created : Option String)
    (histories : List HistoryEntry) : TimesResult :=
  let st := extractTimes histories cfg.status1 cfg.status2
  let startTime := selectStartTime cfg created st.1
  let status2Time := st.2
  let ts := indexTimeSpent cfg.endDate startTime status2Time
  { startTime := startTime, status2Time := status2Time,
    backlogDays := backlogDaysOf now startTime,
    timeSpentMinutes := ts.1, timeSpentDays := ts.2 }

/-- The time-spent pair of `src/unnamed/part_000` (lines 219–230): as in
`src/index.js`, but guarded by
`!isNaN(startDt) && !isNaN(status2Dt) && !isNaN(endDt) && status2Dt <= endDt`,
so it is an actual number or null, never `NaN`. -/
def p0TimeSpent (endDate : String) (startTime status2Time : Option String) :
    JNum × JNum :=
  if jsStrTruthy startTime && jsStrTruthy status2Time then
    match parseISO (startTime.getD ""), parseISO (status2Time.getD ""),
          parseISO endDate with
    | some a, some b, some e =>
      if b ≤ e then
        (JNum.num (differenceInMinutes b a), JNum.num (differenceInDays b a))
      else (JNum.null, JNum.null)
    | _, _, _ => (JNum.null, JNum.null)
  else (JNum.null, JNum.null)

/-- The per-issue timing computation of `src/unnamed/part_000`
(lines 192–230). -/
def p0ComputeTimes (cfg : Config) (now : Int) (created : Option String)
    (histories : List HistoryEntry) : TimesResult :=
  let st := extractTimes histories cfg.status1 cfg.status2
  let startTime := selectStartTime cfg created st.1
  let status2Time := st.2
  let ts := p0TimeSpent cfg.endDate startTime status2Time
  { startTime := startTime, status2Time := status2Time,
    backlogDays := backlogDaysOf now startTime,
    timeSpentMinutes := ts.1, timeSpentDays := ts.2 }

/-- `summary.replace(/"/g, '""')` on the character list. -/
def escQ : List Char → List Char
  | [] => []
  | c :: cs => if c = '"' then '"' :: '"' :: escQ cs else c :: escQ cs

/-- `summary.replace(/"/g, '""')`: double every internal double quote. -/
def escapeQuotes (s : String) : String :=
  String.mk (escQ s.data)

/-- The issue data each script reads from a search-result issue: `key` plus
the requested fields (each nullable) and — for `src/index.js`, where the
changelog is expanded inline — the changelog histories. -/
structure IssueInput where
  key : String
  summary : Option String
  statusName : Option String
  priorityName : Option String
  created : Option String
  assigneeName : Option String
  affectedCustomers : Option String
  histories : List HistoryEntry
deriving DecidableEq, Repr

/-- A report row of `src/index.js` (the object pushed at lines 131–143). -/
structure RowI where
  issueKey : String
  summary : String
  status : String
  priority : String
  startTime : Option String
  backlogDays : JNum
  status2Time : Option String
  timeSpentMinutes : JNum
  timeSpentDays : JNum
  assignee : String
  affectedCustomers : String
deriving DecidableEq, Repr

/-- A report row of `src/unnamed/part_000` (the object pushed at
lines 232–243; it has no Affected Customers column). -/
structure RowP where
  issueKey : String
  summary : String
  status : String
  priority : String
  startTime : Option String
  backlogDays : JNum
  status2Time : Option String
  timeSpentMinutes : JNum
  timeSpentDays : JNum
  assignee : String
deriving DecidableEq, Repr

/-- Row construction of `src/index.js` (lines 73–143): field defaults use
`?:` on object presence (`fields.priority ? fields.priority.name : ...`),
`summary ? summary.replace(/"/g, '""') : ''`, and `|| 'N/A'` for the custom
field. -/
def indexBuildRow (cfg : Config) (now : Int) (iss : IssueInput) : RowI :=
  let t := indexComputeTimes cfg now iss.created iss.histories
  { issueKey := iss.key,
    summary :=
      match iss.summary with
      | some s => if s = "" then "" else escapeQuotes s
      | none => "",
    status := iss.statusName.getD "Unknown",
    priority := iss.priorityName.getD "Unknown",
    startTime := t.startTime,
    backlogDays := t.backlogDays,
    status2Time := t.status2Time,
    timeSpentMinutes := t.timeSpentMinutes,
    timeSpentDays := t.timeSpentDays,
    assignee := iss.assigneeName.getD "Unassigned",
    affectedCustomers :=
      match iss.affectedCustomers with
      | some s => if s = "" then "N/A" else s
      | none => "N/A" }

/-- The row-building text of `src/unnamed/part_000` (lines 189–243): field
defaults use `?.` plus `||` (`fields.priority?.name || 'Unknown'`,
`fields.summary || ''`, `fields.created || null`), and the changelog comes
from the separate per-issue fetch. NOTE: in the real program this code is
DEAD — line 187, which precedes it in the loop body, evaluates the
undeclared identifier `AFFECTED_CUSTOMERS_FIELD_ID` and throws a
ReferenceError on every iteration, so no row is ever built; the per-issue
behavior of the program is `p0ProcessIssue`, which reaches this fragment
only past that throw. This definition embeds the fragment itself, as
written. -/
def p0BuildRow (cfg : Config) (now : Int) (iss : IssueInput)
    (histories : List HistoryEntry) : RowP :=
  let t := p0ComputeTimes cfg now (jsOrNull iss.created) histories
  { issueKey := iss.key,
    summary := escapeQuotes (jsOrStr iss.summary ""),
    status := jsOrStr iss.statusName "Unknown",
    priority := jsOrStr iss.priorityName "Unknown",
    startTime := t.startTime,
    backlogDays := t.backlogDays,
    status2Time := t.status2Time,
    timeSpentMinutes := t.timeSpentMinutes,
    timeSpentDays := t.timeSpentDays,
    assignee := jsOrStr iss.assigneeName "Unassigned" }

/-- `v || ''` rendering of a JS number in a CSV cell (`src/index.js`,
lines 163–175): `null`, `NaN` and `0` are all falsy and render empty. -/
def jnumOrEmpty : JNum → String
  | JNum.null => ""
  | JNum.nan => ""
  | JNum.num n => if n = 0 then "" else toString n

/-- `v ?? ''` rendering of a JS number in a CSV cell
(`src/unnamed/part_000`, lines 275–286): only `null`/`undefined` map to the
empty string; `NaN` stringifies to `NaN` and `0` to `0` in the row join. -/
def jnumNullish : JNum → String
  | JNum.null => ""
  | JNum.nan => "NaN"
  | JNum.num n => toString n

/-- `v || ''` rendering of a nullable string in a CSV cell. -/
def ostrOrEmpty : Option String → String
  | none => ""
  | some s => s

/-- `v ?? ''` rendering of a nullable string in a CSV cell. -/
def ostrNullish : Option String → String
  | none => ""
  | some s => s

/-- The CSV cells of one `src/index.js` row (lines 163–175): only the
Summary cell is wrapped in double quotes; all other cells are rendered
`v || ''` (so a present `0` renders empty). -/
def indexCsvCells (r : RowI) : List String :=
  [ r.issueKey,
    "\"" ++ r.summary ++ "\"",
    r.status,
    r.priority,
    ostrOrEmpty r.startTime,
    jnumOrEmpty r.backlogDays,
    ostrOrEmpty r.status2Time,
    jnumOrEmpty r.timeSpentMinutes,
    jnumOrEmpty r.timeSpentDays,
    r.assignee,
    r.affectedCustomers ]

/-- The CSV cells of one `src/unnamed/part_000` row (lines 275–286): only
the Summary cell is wrapped in double quotes; all other cells are rendered
`v ?? ''` (so a present `0` renders as `0` and `NaN` as `NaN`). -/
def p0CsvCells (r : RowP) : List String :=
  [ r.issueKey,
    "\"" ++ r.summary ++ "\"",
    r.status,
    r.priority,
    ostrNullish r.startTime,
    jnumNullish r.backlogDays,
    ostrNullish r.status2Time,
    jnumNullish r.timeSpentMinutes,
    jnumNullish r.timeSpentDays,
    r.assignee ]

/-- The header cells of `src/index.js` (line 162). -/
def indexHeader (status2 : String) : List String :=
  ["Issue Key", "Summary", "Status", "Priority", "Start Time",
   "Currently in Backlog for", status2 ++ " Time", "Time Spent (Minutes)",
   "Time Spent (Days)", "Assignee", "Affected Customers"]

/-- The header cells of `src/unnamed/part_000` (lines 262–273). -/
def p0Header (status2 : String) : List String :=
  ["Issue Key", "Summary", "Status", "Priority", "Start Time",
   "Currently in Backlog for", status2 ++ " Time", "Time Spent (Minutes)",
   "Time Spent (Days)", "Assignee"]

/-- The CSV file contents written by `src/index.js` `saveResultsToCsv`
(lines 160–179): header row then one comma-joined row per result, joined
with newlines. -/
def indexCsvString (status2 : String) (results : List RowI) : String :=
  String.intercalate "\n"
    (String.intercalate "," (indexHeader status2) ::
      results.map (fun r => String.intercalate "," (indexCsvCells r)))

/-- The CSV file contents written by `src/unnamed/part_000`
`saveResultsToCsv` (lines 261–292). -/
def p0CsvString (status2 : String) (results : List RowP) : String :=
  String.intercalate "\n"
    (String.intercalate "," (p0Header status2) ::
      results.map (fun r => String.intercalate "," (p0CsvCells r)))

/-- `v || 0` coercion used when summing `Time Spent (Days)` in
`src/index.js` (line 156): `null` and `NaN` become `0`. -/
def jnumOrZero : JNum → Int
  | JNum.null => 0
  | JNum.nan => 0
  | JNum.num n => n

/-- `calculateAverageTimeSpentDays` of `src/index.js` (lines 154–158):
sums `r['Time Spent (Days)'] || 0` over ALL rows and divides by the total
number of rows (`0` for an empty row list). -/
def indexCalculateAverageTimeSpentDays (results : List RowI) : ℚ :=
  if results.length = 0 then 0
  else
    ((results.foldl (fun sum r => sum + jnumOrZero r.timeSpentDays) 0 : Int) : ℚ)
      / (results.length : ℚ)

/-- Whether `typeof v === 'number'` holds for a JS number-or-null value
(`NaN` is of type number). -/
def typeofNumber : JNum → Bool
  | JNum.null => false
  | JNum.nan => true
  | JNum.num _ => true

/-- JS summation over a list of number-typed values, where `none` models
`NaN` (which propagates through addition). -/
def jsum : List JNum → Option Int
  | [] => some 0
  | JNum.nan :: _ => none
  | JNum.num n :: rest => (jsum rest).map (fun s => n + s)
  | JNum.null :: rest => jsum rest

/-- `calculateAverageTimeSpentDays` of `src/unnamed/part_000`
(lines 254–259): filters the `Time Spent (Days)` values to those with
`typeof v === 'number'`, returns `0` if none remain, else their sum
divided by their count. The result is a JS number; `none` models `NaN`
(which `typeof` lets through but summation poisons). -/
def p0CalculateAverageTimeSpentDays (results : List RowP) : Option ℚ :=
  let valid := (results.map (fun r => r.timeSpentDays)).filter typeofNumber
  if valid.length = 0 then some 0
  else
    match jsum valid with
    | some s => some ((s : ℚ) / (valid.length : ℚ))
    | none => none

/-- The `Time Spent (Days)` values of the rows where that field holds an
actual number. -/
def presentDaysI (results : List RowI) : List Int :=
  results.filterMap fun r =>
    match r.timeSpentDays with
    | JNum.num n => some n
    | _ => none

/-- The `Time Spent (Days)` values of the rows where that field holds an
actual number. -/
def presentDaysP (results : List RowP) : List Int :=
  results.filterMap fun r =>
    match r.timeSpentDays with
    | JNum.num n => some n
    | _ => none

/-- The summary statistic as the specification words it (spec §4.5, §8;
written from the spec's words, to be compared with the implementations):
the arithmetic mean of the `Time Spent (Days)` values over exactly the rows
where that value is a present number, `0` if there are none. -/
def specMeanPresentI (results : List RowI) : ℚ :=
  if (presentDaysI results).length = 0 then 0
  else (((presentDaysI results).sum : Int) : ℚ) / ((presentDaysI results).length : ℚ)

/-- The spec's mean-of-present statistic over `src/unnamed/part_000` rows. -/
def specMeanPresentP (results : List RowP) : ℚ :=
  if (presentDaysP results).length = 0 then 0
  else (((presentDaysP results).sum : Int) : ℚ) / ((presentDaysP results).length : ℚ)

/-- Common skeleton of the three pagination loops, under the honest-server
model (a page at offset `startAt` is the slice
`(L.drop startAt).take pageSize`, the reported total is `L.length`, and the
loop continues exactly while `startAt + pageSize < L.length`):
* `src/index.js` `getAllIssues` (lines 62–149): do-while with
  `startAt += 50` and re-read `total`;
* `src/unnamed/part_000` `fetchIssueChangelog` (lines 139–168): while-true
  with `isLast = total <= startAt + maxResults` and `startAt += 100`;
* `src/unnamed/part_000` `getAllIssues` (lines 171–249): do-while on
  `nextPageToken`, which the honest server supplies as the next offset and
  sets to null exactly on the last page.
The loop always fetches the page at the current offset, then either stops
or recurses at `startAt + pageSize`. `fuel` bounds the number of
iterations; the wrappers pass more fuel than any run can use. -/
def pagesGo (pageSize : Nat) (L : List α) : Nat → Nat → List (List α)
  | 0, _ => []
  | fuel + 1, startAt =>
    let page := (L.drop startAt).take pageSize
    if startAt + pageSize < L.length then
      page :: pagesGo pageSize L fuel (startAt + pageSize)
    else [page]

/-- The sequence of pages fetched by `src/index.js` `getAllIssues`
(page size 50, offset pagination) against an honest server holding the
issue list `L`. -/
def getAllIssuesPages (L : List α) : List (List α) :=
  pagesGo 50 L (L.length + 1) 0

/-- The sequence of pages fetched by `src/unnamed/part_000`
`fetchIssueChangelog` (page size 100, offset pagination with `isLast`)
against an honest server holding the history list `L`. -/
def fetchIssueChangelogPages (L : List α) : List (List α) :=
  pagesGo 100 L (L.length + 1) 0

/-- The sequence of pages fetched by `src/unnamed/part_000` `getAllIssues`
(page size 50, `nextPageToken` pagination) against an honest server holding
the issue list `L`. -/
def p0SearchPages (L : List α) : List (List α) :=
  pagesGo 50 L (L.length + 1) 0

/-- The error object seen by `withRetry` in `src/unnamed/part_000`:
`err.response?.status` and the wait in milliseconds derived from the
`retry-after` header (`Number(header) * 1000`; `none` models an absent
header or a non-numeric one, whose `NaN` is rejected by the `isNaN` check;
`some 0` models a header of `0`, which is falsy and also falls back to the
exponential delay). -/
structure HttpError where
  status : Option Nat
  retryAfterMs : Option Nat
deriving DecidableEq, Repr

/-- The retry condition of `withRetry` (`src/unnamed/part_000` line 80):
status 429 or any 5xx. -/
def isTransient (e : HttpError) : Bool :=
  match e.status with
  | some s => s == 429 || (500 ≤ s && s ≤ 599)
  | none => false

/-- The wait before the next attempt (`src/unnamed/part_000` lines 81–84):
the `retry-after` milliseconds when present and truthy, otherwise
`baseDelayMs * 2 ^ attempt`. -/
def waitMs (baseDelayMs attempt : Nat) (e : HttpError) : Nat :=
  match e.retryAfterMs with
  | some m => if m = 0 then baseDelayMs * 2 ^ attempt else m
  | none => baseDelayMs * 2 ^ attempt

/-- The `withRetry` loop of `src/unnamed/part_000` (lines 72–94), with the
fallible operation modelled as its outcome on each attempt
(`fn n` = result of the `n`-th invocation). Returns the final outcome and
the list of delays waited, in order. `remaining` is `retries - attempt`;
the loop retries while `attempt < retries` and the error is transient,
otherwise rethrows. -/
def withRetryGo (fn : Nat → Except HttpError α) (baseDelayMs : Nat) :
    Nat → Nat → Except HttpError α × List Nat
  | attempt, remaining =>
    match fn attempt with
    | Except.ok v => (Except.ok v, [])
    | Except.error e =>
      if isTransient e then
        match remaining with
        | 0 => (Except.error e, [])
        | r + 1 =>
          let w := waitMs baseDelayMs attempt e
          let rest := withRetryGo fn baseDelayMs (attempt + 1) r
          (rest.1, w :: rest.2)
      else (Except.error e, [])

/-- `withRetry(fn, { retries, baseDelayMs })` of `src/unnamed/part_000`:
start at attempt 0 with `retries` retries remaining. -/
def withRetry (fn : Nat → Except HttpError α) (retries baseDelayMs : Nat) :
    Except HttpError α × List Nat :=
  withRetryGo fn baseDelayMs 0 retries

/-- An error thrown inside the `src/unnamed/part_000` issue-processing
loop: the ReferenceError from evaluating an undeclared identifier, or a
propagated changelog-fetch failure. -/
inductive P0Error where
  | referenceError (name : String)
  | fetchError (e : HttpError)
deriving DecidableEq, Repr

/-- Line 187 of `src/unnamed/part_000` evaluates
`AFFECTED_CUSTOMERS_FIELD_ID`, an identifier declared nowhere in the file;
in JavaScript evaluating an undeclared identifier throws a ReferenceError. -/
def affectedCustomersFieldId : Except P0Error String :=
  Except.error (P0Error.referenceError "AFFECTED_CUSTOMERS_FIELD_ID")

/-- One iteration of the `src/unnamed/part_000` issue-processing loop
(lines 179–245): lines 180–186 read plain fields (captured in the
`IssueInput`), line 187 evaluates the undeclared
`AFFECTED_CUSTOMERS_FIELD_ID` — which throws a ReferenceError on EVERY
iteration, before the changelog fetch at line 190 — and only past that
throw would the fetch run and the row be built (lines 189–243, the dead
`p0BuildRow` fragment). -/
def p0ProcessIssue (fetchHist : IssueInput → Except HttpError (List HistoryEntry))
    (cfg : Config) (now : Int) (iss : IssueInput) : Except P0Error RowP := do
  let _affectedCustomers ← affectedCustomersFieldId
  let histories ←
    match fetchHist iss with
    | Except.error e => Except.error (P0Error.fetchError e)
    | Except.ok hs => Except.ok hs
  pure (p0BuildRow cfg now iss histories)

/-- The sequential issue-processing loop of `src/unnamed/part_000`
`getAllIssues` (lines 179–246): issues are processed in order and the first
exception — in this program the line-187 ReferenceError of the very first
issue — aborts the whole computation (it propagates out of the loop). -/
def p0GetAllIssuesRun
    (fetchHist : IssueInput → Except HttpError (List HistoryEntry))
    (cfg : Config) (now : Int) : List IssueInput → Except P0Error (List RowP)
  | [] => Except.ok []
  | iss :: rest => do
    let row ← p0ProcessIssue fetchHist cfg now iss
    let rows ← p0GetAllIssuesRun fetchHist cfg now rest
    pure (row :: rows)

/-- `main` of `src/unnamed/part_000` (lines 295–305): the CSV file is
written only after `getAllIssues` returns successfully; any propagated
error is caught and the run ends with no file written (`none`). With at
least one issue the run always ends with `none`, since every iteration
throws at line 187. -/
def p0Main (fetchHist : IssueInput → Except HttpError (List HistoryEntry))
    (cfg : Config) (now : Int) (issues : List IssueInput) : Option String :=
  match p0GetAllIssuesRun fetchHist cfg now issues with
  | Except.ok rows => some (p0CsvString cfg.status2 rows)
  | Except.error _ => none

/-- `main` of `src/index.js` (lines 181–194), abstracted over the outcome
of `getAllIssues`: the CSV file is written only on success; an error is
caught and no file is written. -/
def indexMain (status2 : String) (fetched : Except HttpError (List RowI)) :
    Option String :=
  match fetched with
  | Except.ok rows => some (indexCsvString status2 rows)
  | Except.error _ => none

/-- A run whose page fetch goes through `withRetry` (`src/unnamed/part_000`
lines 120–132 inside `fetchIssues`, called from `getAllIssues`, called from
`main`): if the retried fetch ultimately fails, the error propagates and no
output file is produced. -/
def runWithRetriedFetch (fn : Nat → Except HttpError (List RowP))
    (retries baseDelayMs : Nat) (status2 : String) : Option String :=
  match (withRetry fn retries baseDelayMs).1 with
  | Except.ok rows => some (p0CsvString status2 rows)
  | Except.error _ => none

/-- Whether a history entry contains a status field-change to `st`. -/
def entryMatches (h : HistoryEntry) (st : String) : Bool :=
  h.items.any fun i => i.field == "status" && i.toString == st

/-- The effect of scanning one history entry on one accumulator component. -/
def entryUpd (st : String) (a : Option String) (h : HistoryEntry) :
    Option String :=
  if !jsStrTruthy a && entryMatches h st then some h.created else a

/-- Parse an optional timestamp string: `none` stays `none`. -/
def parseOpt : Option String → Option Int
  | none => none
  | some s => parseISO s

/-- Whether a row value is an actual number (neither `null` nor `NaN`). -/
def JNum.isNum : JNum → Bool
  | JNum.num _ => true
  | _ => false

/-- A history whose first matching entry has an empty-string timestamp:
the recorded (falsy) time is then overwritten by the later entry. -/
def c1Histories : List HistoryEntry :=
  [{ created := "",
     items := [{ field := "status", toString := "08 Blocked" }] },
   { created := "2024-05-01T00:00:00Z",
     items := [{ field := "status", toString := "08 Blocked" }] }]

/-- A history with a re-entered status and non-empty timestamps. -/
def c1WitnessHistories : List HistoryEntry :=
  [{ created := "2024-01-05T10:00:00Z",
     items := [{ field := "status", toString := "In Progress" }] },
   { created := "2024-02-01T00:00:00Z",
     items := [{ field := "status", toString := "Backlog" }] },
   { created := "2024-03-01T00:00:00Z",
     items := [{ field := "status", toString := "In Progress" }] }]

/-- An empty report row of `src/index.js` with a chosen `Time Spent (Days)`
value. -/
def rowIWith (d : JNum) : RowI :=
  { issueKey := "K", summary := "", status := "Backlog", priority := "Low",
    startTime := none, backlogDays := JNum.null, status2Time := none,
    timeSpentMinutes := JNum.null, timeSpentDays := d,
    assignee := "Unassigned", affectedCustomers := "N/A" }

/-- An empty report row of `src/unnamed/part_000` with a chosen
`Time Spent (Days)` value. -/
def rowPWith (d : JNum) : RowP :=
  { issueKey := "K", summary := "", status := "Backlog", priority := "Low",
    startTime := none, backlogDays := JNum.null, status2Time := none,
    timeSpentMinutes := JNum.null, timeSpentDays := d,
    assignee := "Unassigned" }

/-- An issue with no fields set and a chosen created date. -/
def issueWithCreated (created : Option String) : IssueInput :=
  { key := "BUG-1", summary := none, statusName := none, priorityName := none,
    created := created, assigneeName := none, affectedCustomers := none,
    histories := [] }

/-- The claim C9 example issue: a summary containing an embedded double
quote. -/
def c9Issue : IssueInput :=
  { key := "K-1", summary := some "He said \"hi\"", statusName := none,
    priorityName := none, created := none, assigneeName := none,
    affectedCustomers := none, histories := [] }

/-- A row of `src/index.js` whose three numeric fields are a present `0`. -/
def c10RowI : RowI :=
  { issueKey := "K-2", summary := "s", status := "Backlog", priority := "Low",
    startTime := some "2024-01-01", backlogDays := JNum.num 0,
    status2Time := some "2024-01-01", timeSpentMinutes := JNum.num 0,
    timeSpentDays := JNum.num 0, assignee := "A",
    affectedCustomers := "N/A" }

/-- A row of `src/unnamed/part_000` whose three numeric fields are a
present `0`. -/
def c10RowP : RowP :=
  { issueKey := "K-2", summary := "s", status := "Backlog", priority := "Low",
    startTime := some "2024-01-01", backlogDays := JNum.num 0,
    status2Time := some "2024-01-01", timeSpentMinutes := JNum.num 0,
    timeSpentDays := JNum.num 0, assignee := "A" }

/-- An operation that fails on every attempt with a transient 503 and no
retry-after header. -/
def c6Fn : Nat → Except HttpError Nat :=
  fun _ => Except.error { status := some 503, retryAfterMs := none }

/-- A page fetch that fails on every attempt with a transient 429 and no
retry-after header. -/
def c6Fetch : Nat → Except HttpError (List RowP) :=
  fun _ => Except.error { status := some 429, retryAfterMs := none }

/-- A changelog fetch that always succeeds with an empty history. -/
def c8OkFetch : IssueInput → Except HttpError (List HistoryEntry) :=
  fun _ => Except.ok []

lemma foldl_extractStep_fst (s1 s2 c : String) (items : List FieldChange) :
    ∀ acc : Option String × Option String,
    (items.foldl (extractStep s1 s2 c) acc).1 =
      if !jsStrTruthy acc.1 &&
          items.any (fun i => i.field == "status" && i.toString == s1) then
        some c
      else acc.1 := by
  induction items with
  | nil => intro acc; simp
  | cons i rest ih =>
    intro acc
    rw [List.foldl_cons, ih]
    simp only [extractStep, List.any_cons]
    rcases Bool.eq_false_or_eq_true (i.field == "status") with hf | hf <;>
      rcases Bool.eq_false_or_eq_true (i.toString == s1) with ht | ht <;>
      rcases Bool.eq_false_or_eq_true (jsStrTruthy acc.1) with ha | ha <;>
      simp [hf, ht, ha]

lemma foldl_extractStep_snd (s1 s2 c : String) (items : List FieldChange) :
    ∀ acc : Option String × Option String,
    (items.foldl (extractStep s1 s2 c) acc).2 =
      if !jsStrTruthy acc.2 &&
          items.any (fun i => i.field == "status" && i.toString == s2) then
        some c
      else acc.2 := by
  induction items with
  | nil => intro acc; simp
  | cons i rest ih =>
    intro acc
    rw [List.foldl_cons, ih]
    simp only [extractStep, List.any_cons]
    rcases Bool.eq_false_or_eq_true (i.field == "status") with hf | hf <;>
      rcases Bool.eq_false_or_eq_true (i.toString == s2) with ht | ht <;>
      rcases Bool.eq_false_or_eq_true (jsStrTruthy acc.2) with ha | ha <;>
      simp [hf, ht, ha]

lemma extractEntry_eq (s1 s2 : String) (acc : Option String × Option String)
    (h : HistoryEntry) :
    extractEntry s1 s2 acc h = (entryUpd s1 acc.1 h, entryUpd s2 acc.2 h) := by
  unfold extractEntry entryUpd entryMatches
  exact Prod.ext (foldl_extractStep_fst s1 s2 h.created h.items acc)
    (foldl_extractStep_snd s1 s2 h.created h.items acc)

lemma extractFold_factor (s1 s2 : String) :
    ∀ (histories : List HistoryEntry) (acc : Option String × Option String),
    histories.foldl (extractEntry s1 s2) acc =
      (histories.foldl (entryUpd s1) acc.1, histories.foldl (entryUpd s2) acc.2) := by
  intro histories
  induction histories with
  | nil => intro acc; rfl
  | cons h rest ih =>
    intro acc
    rw [List.foldl_cons, ih, extractEntry_eq]
    rfl

lemma specFirstTransition_cons (h : HistoryEntry) (rest : List HistoryEntry)
    (st : String) :
    specFirstTransition (h :: rest) st =
      if entryMatches h st then some h.created else specFirstTransition rest st := by
  unfold specFirstTransition entryMatches
  rw [List.find?_cons]
  cases hm : (h.items.any fun i => i.field == "status" && i.toString == st) with
  | false => simp [hm]
  | true => simp [hm]

lemma entryUpdFold_spec (st : String) :
    ∀ (histories : List HistoryEntry) (a : Option String),
    (∀ h ∈ histories, h.created ≠ "") →
    (a = none ∨ jsStrTruthy a = true) →
    histories.foldl (entryUpd st) a =
      if a = none then specFirstTransition histories st else a := by
  intro histories
  induction histories with
  | nil =>
    intro a _ _
    cases a <;> simp [specFirstTransition]
  | cons h rest ih =>
    intro a hne ha
    rw [List.foldl_cons, specFirstTransition_cons]
    have hcr : h.created ≠ "" := hne h (List.mem_cons_self h rest)
    have hne' : ∀ g ∈ rest, g.created ≠ "" := fun g hg => hne g (List.mem_cons_of_mem h hg)
    rcases ha with ha | ha
    · subst ha
      cases hm : entryMatches h st with
      | false =>
        have hupd : entryUpd st none h = none := by simp [entryUpd, hm, jsStrTruthy]
        rw [hupd, ih none hne' (Or.inl rfl)]
        simp [hm]
      | true =>
        have hupd : entryUpd st none h = some h.created := by
          simp [entryUpd, hm, jsStrTruthy]
        rw [hupd, ih _ hne' (Or.inr (by simp [jsStrTruthy, hcr]))]
        simp [hm]
    · have hne'' : a ≠ none := by
        intro hcon; rw [hcon] at ha; simp [jsStrTruthy] at ha
      have hupd : entryUpd st a h = a := by simp [entryUpd, ha]
      rw [hupd, ih _ hne' (Or.inr ha)]
      simp [hne'']

/-- C1 counterexample: on a history whose first entry matching the target
status carries an empty-string timestamp, the extraction does NOT record
that first entry's timestamp — the falsy accumulator is overwritten by the
later matching entry, so the claim fails as stated. -/
theorem extractTimes_not_always_first :
    ¬(extractTimes c1Histories "01 To Write" "08 Blocked" =
      (specFirstTransition c1Histories "01 To Write",
       specFirstTransition c1Histories "08 Blocked")) := by decide

/-- C1 (amended): for every history all of whose entry timestamps are
non-empty strings, the extraction records for each target status the
timestamp of the first entry containing a status field-change to that
status, and later entries never overwrite or un-set a recorded time. -/
theorem extractTimes_first_write_wins (histories : List HistoryEntry)
    (s1 s2 : String) (hne : ∀ h ∈ histories, h.created ≠ "") :
    extractTimes histories s1 s2 =
      (specFirstTransition histories s1, specFirstTransition histories s2) := by
  unfold extractTimes
  rw [extractFold_factor]
  rw [entryUpdFold_spec s1 histories none hne (Or.inl rfl),
    entryUpdFold_spec s2 histories none hne (Or.inl rfl)]
  simp

/-- C1 witness: the amended theorem applied to a concrete history in which
the second status is entered, left and re-entered. -/
theorem extractTimes_first_write_wins_witness :
    extractTimes c1WitnessHistories "Backlog" "In Progress" =
      (specFirstTransition c1WitnessHistories "Backlog",
       specFirstTransition c1WitnessHistories "In Progress") :=
  extractTimes_first_write_wins c1WitnessHistories "Backlog" "In Progress"
    (by decide)

lemma jsStrTruthy_of_parse (o : Option String)
    (h : (parseOpt o).isSome = true) : jsStrTruthy o = true := by
  cases o with
  | none => simp [parseOpt] at h
  | some s =>
    by_cases hs : s = ""
    · subst hs
      have hp : parseISO "" = none := rfl
      rw [parseOpt, hp] at h
      cases h
    · simpa [jsStrTruthy] using hs

lemma indexTimeSpent_presence (endDate : String) (st s2 : Option String) :
    ((indexTimeSpent endDate st s2).1.isNum = true ↔
      ((parseOpt st).isSome = true ∧ (parseOpt s2).isSome = true ∧
        jsDateLe (parseOpt s2) (parseISO endDate) = true)) ∧
    ((indexTimeSpent endDate st s2).2.isNum = true ↔
      ((parseOpt st).isSome = true ∧ (parseOpt s2).isSome = true ∧
        jsDateLe (parseOpt s2) (parseISO endDate) = true)) := by
  rcases Bool.eq_false_or_eq_true (jsStrTruthy st && jsStrTruthy s2) with hb | hb
  case inr =>
    have hP : ¬((parseOpt st).isSome = true ∧ (parseOpt s2).isSome = true ∧
        jsDateLe (parseOpt s2) (parseISO endDate) = true) := by
      rintro ⟨h1, h2, _⟩
      rw [jsStrTruthy_of_parse st h1, jsStrTruthy_of_parse s2 h2] at hb
      cases hb
    unfold indexTimeSpent
    rw [hb]
    refine ⟨⟨fun h => ?_, fun h => absurd h hP⟩,
      ⟨fun h => ?_, fun h => absurd h hP⟩⟩
    · simp [JNum.isNum] at h
    · simp [JNum.isNum] at h
  case inl =>
    have t1 : jsStrTruthy st = true := ((Bool.and_eq_true _ _).mp hb).1
    have t2 : jsStrTruthy s2 = true := ((Bool.and_eq_true _ _).mp hb).2
    cases st with
    | none => simp [jsStrTruthy] at t1
    | some s =>
      cases s2 with
      | none => simp [jsStrTruthy] at t2
      | some s' =>
        unfold indexTimeSpent
        rw [hb]
        simp only [if_true, Option.getD_some]
        rcases hp2 : parseISO s' with _ | b
        · constructor <;> simp [parseOpt, hp2, jsDateLe, JNum.isNum]
        · rcases hpe : parseISO endDate with _ | e
          · constructor <;> simp [parseOpt, hp2, hpe, jsDateLe, JNum.isNum]
          · by_cases hle : b ≤ e
            · rcases hp1 : parseISO s with _ | a
              · constructor <;>
                  simp [parseOpt, hp1, hp2, hpe, hle, jsDateLe, JNum.isNum]
              · constructor <;>
                  simp [parseOpt, hp1, hp2, hpe, hle, jsDateLe, JNum.isNum]
            · constructor <;>
                simp [parseOpt, hp2, hpe, hle, jsDateLe, JNum.isNum]

lemma p0TimeSpent_presence (endDate : String) (st s2 : Option String) :
    ((p0TimeSpent endDate st s2).1.isNum = true ↔
      ((parseOpt st).isSome = true ∧ (parseOpt s2).isSome = true ∧
        jsDateLe (parseOpt s2) (parseISO endDate) = true)) ∧
    ((p0TimeSpent endDate st s2).2.isNum = true ↔
      ((parseOpt st).isSome = true ∧ (parseOpt s2).isSome = true ∧
        jsDateLe (parseOpt s2) (parseISO endDate) = true)) := by
  rcases Bool.eq_false_or_eq_true (jsStrTruthy st && jsStrTruthy s2) with hb | hb
  case inr =>
    have hP : ¬((parseOpt st).isSome = true ∧ (parseOpt s2).isSome = true ∧
        jsDateLe (parseOpt s2) (parseISO endDate) = true) := by
      rintro ⟨h1, h2, _⟩
      rw [jsStrTruthy_of_parse st h1, jsStrTruthy_of_parse s2 h2] at hb
      cases hb
    unfold p0TimeSpent
    rw [hb]
    refine ⟨⟨fun h => ?_, fun h => absurd h hP⟩,
      ⟨fun h => ?_, fun h => absurd h hP⟩⟩
    · simp [JNum.isNum] at h
    · simp [JNum.isNum] at h
  case inl =>
    have t1 : jsStrTruthy st = true := ((Bool.and_eq_true _ _).mp hb).1
    have t2 : jsStrTruthy s2 = true := ((Bool.and_eq_true _ _).mp hb).2
    cases st with
    | none => simp [jsStrTruthy] at t1
    | some s =>
      cases s2 with
      | none => simp [jsStrTruthy] at t2
      | some s' =>
        unfold p0TimeSpent
        rw [hb]
        simp only [if_true, Option.getD_some]
        rcases hp1 : parseISO s with _ | a
        · constructor <;> simp [parseOpt, hp1, jsDateLe, JNum.isNum]
        · rcases hp2 : parseISO s' with _ | b
          · constructor <;> simp [parseOpt, hp1, hp2, jsDateLe, JNum.isNum]
          · rcases hpe : parseISO endDate with _ | e
            · constructor <;>
                simp [parseOpt, hp1, hp2, hpe, jsDateLe, JNum.isNum]
            · by_cases hle : b ≤ e
              · constructor <;>
                  simp [parseOpt, hp1, hp2, hpe, hle, jsDateLe, JNum.isNum]
              · constructor <;>
                  simp [parseOpt, hp1, hp2, hpe, hle, jsDateLe, JNum.isNum]

/-- C2: in both scripts, EACH of `timeSpentMinutes` and `timeSpentDays`
holds an actual number exactly when the selected `startTime` parses, the
recorded `status2Time` parses, and the parsed `status2Time` is less than or
equal to the parsed end-date cutoff (a JS date comparison that is false
whenever the cutoff is unparseable); in every other case each of the two
fields holds no number — it is `null`, or in `src/index.js` possibly `NaN`,
never `0`. -/
theorem timeSpent_presence_iff (cfg : Config) (now : Int)
    (created : Option String) (histories : List HistoryEntry) :
    ((indexComputeTimes cfg now created histories).timeSpentMinutes.isNum = true ↔
      ((parseOpt (indexComputeTimes cfg now created histories).startTime).isSome = true ∧
       (parseOpt (indexComputeTimes cfg now created histories).status2Time).isSome = true ∧
       jsDateLe (parseOpt (indexComputeTimes cfg now created histories).status2Time)
         (parseISO cfg.endDate) = true)) ∧
    ((indexComputeTimes cfg now created histories).timeSpentDays.isNum = true ↔
      ((parseOpt (indexComputeTimes cfg now created histories).startTime).isSome = true ∧
       (parseOpt (indexComputeTimes cfg now created histories).status2Time).isSome = true ∧
       jsDateLe (parseOpt (indexComputeTimes cfg now created histories).status2Time)
         (parseISO cfg.endDate) = true)) ∧
    ((p0ComputeTimes cfg now created histories).timeSpentMinutes.isNum = true ↔
      ((parseOpt (p0ComputeTimes cfg now created histories).startTime).isSome = true ∧
       (parseOpt (p0ComputeTimes cfg now created histories).status2Time).isSome = true ∧
       jsDateLe (parseOpt (p0ComputeTimes cfg now created histories).status2Time)
         (parseISO cfg.endDate) = true)) ∧
    ((p0ComputeTimes cfg now created histories).timeSpentDays.isNum = true ↔
      ((parseOpt (p0ComputeTimes cfg now created histories).startTime).isSome = true ∧
       (parseOpt (p0ComputeTimes cfg now created histories).status2Time).isSome = true ∧
       jsDateLe (parseOpt (p0ComputeTimes cfg now created histories).status2Time)
         (parseISO cfg.endDate) = true)) := by
  have hi := indexTimeSpent_presence cfg.endDate
    (selectStartTime cfg created (extractTimes histories cfg.status1 cfg.status2).1)
    (extractTimes histories cfg.status1 cfg.status2).2
  have hp := p0TimeSpent_presence cfg.endDate
    (selectStartTime cfg created (extractTimes histories cfg.status1 cfg.status2).1)
    (extractTimes histories cfg.status1 cfg.status2).2
  refine ⟨?_, ?_, ?_, ?_⟩
  · simpa [indexComputeTimes] using hi.1
  · simpa [indexComputeTimes] using hi.2
  · simpa [p0ComputeTimes] using hp.1
  · simpa [p0ComputeTimes] using hp.2

lemma backlogDaysOf_parse (now : Int) (st : Option String) (s : String)
    (t : Int) (hs : st = some s) (hp : parseISO s = some t) :
    backlogDaysOf now st = JNum.num (Int.tdiv (now - t) 86400000) := by
  subst hs
  have htr : jsStrTruthy (some s) = true :=
    jsStrTruthy_of_parse (some s) (by simp [parseOpt, hp])
  unfold backlogDaysOf
  rw [htr]
  simp [hp, differenceInDays]

lemma backlogDaysOf_null (now : Int) (st : Option String)
    (h : jsStrTruthy st = false) : backlogDaysOf now st = JNum.null := by
  unfold backlogDaysOf
  rw [h]
  simp

/-- C4 counterexample: with `now` at the epoch and a startTime half a day
later, the code's `backlogDays` is `0` (truncation toward zero / full days),
not `floor((now - startTime) in days) = -1` as the claim states, so
truncation is not always toward the earlier date. -/
theorem backlogDays_not_floor :
    parseISO "1970-01-01T12:00:00Z" = some 43200000 ∧
    ¬((indexComputeTimes indexConfig 0 (some "1970-01-01T12:00:00Z") []).backlogDays =
        JNum.num (Int.fdiv (0 - 43200000) 86400000)) := by decide

/-- C4 (amended): in both scripts, for every issue whose selected
`startTime` parses to a timestamp `t`, `backlogDays` is the difference
`now - t` in whole days truncated TOWARD ZERO (the date-fns full-day count:
floor when `now ≥ startTime`, but rounded up toward zero when `startTime`
is later than `now`); `backlogDays` is absent (null) whenever `startTime`
is absent (falsy). -/
theorem backlogDays_truncation (cfg : Config) (now : Int)
    (created : Option String) (histories : List HistoryEntry) :
    (∀ s t, (indexComputeTimes cfg now created histories).startTime = some s →
      parseISO s = some t →
      (indexComputeTimes cfg now created histories).backlogDays =
        JNum.num (Int.tdiv (now - t) 86400000)) ∧
    (jsStrTruthy (indexComputeTimes cfg now created histories).startTime = false →
      (indexComputeTimes cfg now created histories).backlogDays = JNum.null) ∧
    (∀ s t, (p0ComputeTimes cfg now created histories).startTime = some s →
      parseISO s = some t →
      (p0ComputeTimes cfg now created histories).backlogDays =
        JNum.num (Int.tdiv (now - t) 86400000)) ∧
    (jsStrTruthy (p0ComputeTimes cfg now created histories).startTime = false →
      (p0ComputeTimes cfg now created histories).backlogDays = JNum.null) := by
  refine ⟨?_, ?_, ?_, ?_⟩
  · intro s t h1 h2
    simp only [indexComputeTimes] at h1 ⊢
    exact backlogDaysOf_parse now _ s t h1 h2
  · intro h
    simp only [indexComputeTimes] at h ⊢
    exact backlogDaysOf_null now _ h
  · intro s t h1 h2
    simp only [p0ComputeTimes] at h1 ⊢
    exact backlogDaysOf_parse now _ s t h1 h2
  · intro h
    simp only [p0ComputeTimes] at h ⊢
    exact backlogDaysOf_null now _ h

/-- C4 witness: a start date one day before `now = 0` gives
`backlogDays = -1`, and an absent created date gives a null `backlogDays`. -/
theorem backlogDays_truncation_witness :
    (indexComputeTimes indexConfig 0 (some "1970-01-02") []).backlogDays =
      JNum.num (Int.tdiv (0 - 86400000) 86400000) ∧
    (p0ComputeTimes p0Config 0 none []).backlogDays = JNum.null :=
  ⟨(backlogDays_truncation indexConfig 0 (some "1970-01-02") []).1
      "1970-01-02" 86400000 rfl rfl,
   (backlogDays_truncation p0Config 0 none []).2.2.2 rfl⟩

lemma foldl_add_jnumOrZero (rows : List RowI) :
    ∀ a : Int,
    rows.foldl (fun sum r => sum + jnumOrZero r.timeSpentDays) a =
      a + (rows.map fun r => jnumOrZero r.timeSpentDays).sum := by
  induction rows with
  | nil => intro a; simp
  | cons r rest ih =>
    intro a
    rw [List.foldl_cons, ih]
    simp [add_assoc]

lemma map_jnumOrZero_sum (rows : List RowI) :
    (rows.map fun r => jnumOrZero r.timeSpentDays).sum = (presentDaysI rows).sum := by
  induction rows with
  | nil => rfl
  | cons r rest ih =>
    rcases hd : r.timeSpentDays with _ | _ | n <;>
      simp [presentDaysI, List.filterMap_cons, hd, jnumOrZero, ih,
        presentDaysI] <;>
      simpa [presentDaysI] using ih

lemma filter_typeof_eq_map_num : ∀ (l : List JNum), (∀ v ∈ l, v ≠ JNum.nan) →
    l.filter typeofNumber =
      (l.filterMap fun v =>
        match v with
        | JNum.num n => some n
        | _ => none).map JNum.num := by
  intro l
  induction l with
  | nil => intro _; rfl
  | cons v rest ih =>
    intro h
    have hv : v ≠ JNum.nan := h v (List.mem_cons_self v rest)
    have hrest := ih fun w hw => h w (List.mem_cons_of_mem v hw)
    rcases v with _ | _ | n
    · simpa [List.filter_cons, List.filterMap_cons, typeofNumber] using hrest
    · exact absurd rfl hv
    · simpa [List.filter_cons, List.filterMap_cons, typeofNumber] using hrest

lemma jsum_map_num : ∀ l : List Int, jsum (l.map JNum.num) = some l.sum := by
  intro l
  induction l with
  | nil => rfl
  | cons n rest ih => simp [jsum, ih]

/-- C3 counterexample: with one row whose `Time Spent (Days)` is 4 and one
row where it is absent, the mean over present values is 4, but
`src/index.js` reports 2 — it divides the present-value sum by the total
number of rows, so the claim fails as stated. -/
theorem indexAverage_not_mean_of_present :
    indexCalculateAverageTimeSpentDays
        [rowIWith (JNum.num 4), rowIWith JNum.null] ≠
      specMeanPresentI [rowIWith (JNum.num 4), rowIWith JNum.null] := by
  have h1 : indexCalculateAverageTimeSpentDays
      [rowIWith (JNum.num 4), rowIWith JNum.null] = 2 := by
    simp [indexCalculateAverageTimeSpentDays, rowIWith, jnumOrZero]
    norm_num
  have h2 : specMeanPresentI [rowIWith (JNum.num 4), rowIWith JNum.null] = 4 := by
    simp [specMeanPresentI, presentDaysI, List.filterMap_cons, rowIWith]
  rw [h1, h2]
  norm_num

/-- C3 (amended): `src/unnamed/part_000` reports the arithmetic mean of the
`Time Spent (Days)` values over exactly the rows where that value is a
present number (0 if none are present), but `src/index.js` reports the sum
of the present values (absent values counted as 0) divided by the TOTAL
number of rows, and 0 only when the row list itself is empty. -/
theorem average_time_spent_characterization :
    (∀ rows : List RowP, (∀ r ∈ rows, r.timeSpentDays ≠ JNum.nan) →
      p0CalculateAverageTimeSpentDays rows = some (specMeanPresentP rows)) ∧
    (∀ rows : List RowI, rows ≠ [] →
      indexCalculateAverageTimeSpentDays rows =
        (((presentDaysI rows).sum : Int) : ℚ) / (rows.length : ℚ)) ∧
    indexCalculateAverageTimeSpentDays [] = 0 := by
  refine ⟨?_, ?_, by decide⟩
  · intro rows h
    have hnn : ∀ v ∈ rows.map (fun r => r.timeSpentDays), v ≠ JNum.nan := by
      intro v hv
      rcases List.mem_map.mp hv with ⟨r, hr, hrv⟩
      exact hrv ▸ h r hr
    have hfil := filter_typeof_eq_map_num (rows.map fun r => r.timeSpentDays) hnn
    have hpd : (rows.map fun r => r.timeSpentDays).filterMap
        (fun v =>
          match v with
          | JNum.num n => some n
          | _ => none) = presentDaysP rows := by
      simp [presentDaysP, List.filterMap_map]
      rfl
    unfold p0CalculateAverageTimeSpentDays specMeanPresentP
    rw [hfil, hpd]
    simp only [List.length_map, jsum_map_num]
    by_cases hz : (presentDaysP rows).length = 0
    · simp [hz]
    · simp [hz]
  · intro rows hne
    unfold indexCalculateAverageTimeSpentDays
    have hz : ¬(rows.length = 0) := by
      intro h
      exact hne (List.length_eq_zero.mp h)
    rw [if_neg hz, foldl_add_jnumOrZero, map_jnumOrZero_sum]
    simp

/-- C3 witness: the amended characterization applied to concrete rows
(one present value 3 and one absent for the mean-of-present script; a
single present value 4 for the sum-over-total script). -/
theorem average_time_spent_characterization_witness :
    p0CalculateAverageTimeSpentDays [rowPWith (JNum.num 3), rowPWith JNum.null] =
      some (specMeanPresentP [rowPWith (JNum.num 3), rowPWith JNum.null]) ∧
    indexCalculateAverageTimeSpentDays [rowIWith (JNum.num 4)] =
      (((presentDaysI [rowIWith (JNum.num 4)]).sum : Int) : ℚ) /
        ((List.length [rowIWith (JNum.num 4)] : Nat) : ℚ) :=
  ⟨average_time_spent_characterization.1
      [rowPWith (JNum.num 3), rowPWith JNum.null] (by decide),
   average_time_spent_characterization.2.1 [rowIWith (JNum.num 4)] (by decide)⟩

lemma pagesGo_succ (p : Nat) (L : List α) (fuel s : Nat) :
    pagesGo p L (fuel + 1) s =
      if s + p < L.length then
        ((L.drop s).take p) :: pagesGo p L fuel (s + p)
      else [(L.drop s).take p] := rfl

lemma pagesGo_flatten (p : Nat) (L : List α) :
    ∀ (fuel s : Nat), L.length ≤ s + p * fuel →
    (pagesGo p L (fuel + 1) s).flatten = L.drop s := by
  intro fuel
  induction fuel with
  | zero =>
    intro s h
    rw [Nat.mul_zero, Nat.add_zero] at h
    have hc : ¬(s + p < L.length) := by omega
    have hnil : L.drop s = [] := List.drop_eq_nil_of_le h
    rw [pagesGo_succ, if_neg hc]
    simp [hnil]
  | succ f ih =>
    intro s h
    rw [Nat.mul_succ] at h
    by_cases hc : s + p < L.length
    · have hrec := ih (s + p) (by omega)
      rw [pagesGo_succ, if_pos hc, List.flatten_cons, hrec]
      calc (L.drop s).take p ++ L.drop (s + p)
          = (L.drop s).take p ++ (L.drop s).drop p := by
            rw [List.drop_drop p s L]
        _ = L.drop s := List.take_append_drop p (L.drop s)
    · have htk : (L.drop s).take p = L.drop s :=
        List.take_of_length_le (by simp; omega)
      rw [pagesGo_succ, if_neg hc]
      simp [htk]

lemma pagesGo_length (p : Nat) (hp : 0 < p) (L : List α) :
    ∀ (fuel s : Nat), L.length ≤ s + p * fuel →
    (pagesGo p L (fuel + 1) s).length = max 1 ((L.length - s + (p - 1)) / p) := by
  intro fuel
  induction fuel with
  | zero =>
    intro s h
    rw [Nat.mul_zero, Nat.add_zero] at h
    have hc : ¬(s + p < L.length) := by omega
    have hz : L.length - s = 0 := by omega
    have hdiv : (p - 1) / p = 0 := Nat.div_eq_of_lt (by omega)
    rw [pagesGo_succ, if_neg hc]
    simp [hz, hdiv]
  | succ f ih =>
    intro s h
    rw [Nat.mul_succ] at h
    by_cases hc : s + p < L.length
    · have hrec := ih (s + p) (by omega)
      rw [pagesGo_succ, if_pos hc, List.length_cons, hrec]
      have hm : p < L.length - s := by omega
      have h1 : L.length - (s + p) + (p - 1) = L.length - s - 1 := by omega
      have h2 : 1 ≤ (L.length - s - 1) / p :=
        (Nat.le_div_iff_mul_le hp).mpr (by omega)
      have h3 : L.length - s + (p - 1) = (L.length - s - 1) + p := by omega
      rw [h1, h3, Nat.add_div_right _ hp]
      rw [Nat.max_eq_right h2, Nat.max_eq_right (by omega : 1 ≤ (L.length - s - 1) / p + 1)]
    · have hdiv : (L.length - s + (p - 1)) / p < 2 :=
        Nat.div_lt_of_lt_mul (by omega)
      have hmax : max 1 ((L.length - s + (p - 1)) / p) = 1 := by omega
      rw [pagesGo_succ, if_neg hc]
      simp [hmax]

/-- C5 counterexample: with zero issues, the `src/index.js` loop still
fetches one page (its do-while always performs the first request), so it
does not visit `ceil(total / pageSize) = 0` pages as the claim states. -/
theorem getAllIssuesPages_empty_not_ceil :
    ¬((getAllIssuesPages ([] : List Nat)).length =
      (List.length ([] : List Nat) + 49) / 50) := by decide

/-- C5 (amended): against an honest server, each of the three pagination
loops terminates after visiting exactly `max 1 (ceil(total / pageSize))`
pages — `ceil(total / pageSize)` when the total is positive, but one page
(not zero) when the total is zero, since each loop unconditionally fetches
the first page — each page exactly once, and the concatenation of the
visited pages is exactly the item list (no duplicated, skipped or
re-fetched items), including when the final page is shorter than the
requested page size. -/
theorem pagination_pages_exact (L : List α) :
    (getAllIssuesPages L).length = max 1 ((L.length + 49) / 50) ∧
    (getAllIssuesPages L).flatten = L ∧
    (fetchIssueChangelogPages L).length = max 1 ((L.length + 99) / 100) ∧
    (fetchIssueChangelogPages L).flatten = L ∧
    (p0SearchPages L).length = max 1 ((L.length + 49) / 50) ∧
    (p0SearchPages L).flatten = L := by
  have h50 : L.length ≤ 0 + 50 * L.length := by omega
  have h100 : L.length ≤ 0 + 100 * L.length := by omega
  refine ⟨?_, ?_, ?_, ?_, ?_, ?_⟩
  · have := pagesGo_length 50 (by norm_num) L L.length 0 h50
    simpa [getAllIssuesPages] using this
  · have := pagesGo_flatten 50 L L.length 0 h50
    simpa [getAllIssuesPages] using this
  · have := pagesGo_length 100 (by norm_num) L L.length 0 h100
    simpa [fetchIssueChangelogPages] using this
  · have := pagesGo_flatten 100 L L.length 0 h100
    simpa [fetchIssueChangelogPages] using this
  · have := pagesGo_length 50 (by norm_num) L L.length 0 h50
    simpa [p0SearchPages] using this
  · have := pagesGo_flatten 50 L L.length 0 h50
    simpa [p0SearchPages] using this

lemma withRetryGo_delays (fn : Nat → Except HttpError α) (base : Nat)
    (hna : ∀ n e, fn n = Except.error e → e.retryAfterMs = none) :
    ∀ (r a : Nat), ∃ k, (withRetryGo fn base a r).2 =
      (List.range k).map (fun i => base * 2 ^ (a + i)) := by
  intro r
  induction r with
  | zero =>
    intro a
    refine ⟨0, ?_⟩
    unfold withRetryGo
    rcases hf : fn a with e | v
    · by_cases ht : isTransient e = true
      · simp [ht]
      · simp [ht]
    · simp
  | succ r ih =>
    intro a
    unfold withRetryGo
    rcases hf : fn a with e | v
    · by_cases ht : isTransient e = true
      · have hra : e.retryAfterMs = none := hna a e hf
        obtain ⟨k, hk⟩ := ih (a + 1)
        refine ⟨k + 1, ?_⟩
        simp only [ht, if_true, hk]
        have hw : waitMs base a e = base * 2 ^ a := by
          unfold waitMs
          rw [hra]
        rw [hw, List.range_succ_eq_map, List.map_cons, List.map_map]
        have hfe : ((fun i => base * 2 ^ (a + i)) ∘ Nat.succ) =
            fun i => base * 2 ^ (a + 1 + i) := by
          funext i
          have hai : a + Nat.succ i = a + 1 + i := by omega
          simp [Function.comp, hai]
        rw [hfe]
        simp
      · exact ⟨0, by simp [ht]⟩
    · exact ⟨0, by simp⟩

lemma withRetryGo_error (fn : Nat → Except HttpError α) (base : Nat)
    (hfail : ∀ n, ∃ e, fn n = Except.error e ∧ isTransient e = true) :
    ∀ (r a : Nat), ∃ e, (withRetryGo fn base a r).1 = Except.error e := by
  intro r
  induction r with
  | zero =>
    intro a
    obtain ⟨e, hf, ht⟩ := hfail a
    refine ⟨e, ?_⟩
    unfold withRetryGo
    rw [hf]
    simp [ht]
  | succ r ih =>
    intro a
    obtain ⟨e, hf, ht⟩ := hfail a
    obtain ⟨e', he'⟩ := ih (a + 1)
    refine ⟨e', ?_⟩
    unfold withRetryGo
    rw [hf]
    simp [ht, he']

/-- C6: for the `withRetry` wrapper of `src/unnamed/part_000`, (a) whenever
the failing operation's transient errors carry no retry-after override, the
waits before successive attempts are `baseDelayMs * 2 ^ attempt` for
consecutive attempts, hence monotonically non-decreasing across the run;
and (b) a run whose retried page fetch fails with a transient error on
every attempt exhausts the retry ceiling, propagates the error out of
`getAllIssues`, and produces no output file. -/
theorem retry_backoff_monotone_and_abort (fn : Nat → Except HttpError α)
    (fetch : Nat → Except HttpError (List RowP)) (retries baseDelayMs : Nat)
    (status2 : String) :
    ((∀ n e, fn n = Except.error e → e.retryAfterMs = none) →
      List.Pairwise (· ≤ ·) (withRetry fn retries baseDelayMs).2) ∧
    ((∀ n, ∃ e, fetch n = Except.error e ∧ isTransient e = true) →
      runWithRetriedFetch fetch retries baseDelayMs status2 = none) := by
  constructor
  · intro hna
    obtain ⟨k, hk⟩ := withRetryGo_delays fn baseDelayMs hna retries 0
    unfold withRetry
    rw [hk, List.pairwise_map]
    refine (List.pairwise_lt_range k).imp ?_
    intro i j hij
    exact Nat.mul_le_mul_left baseDelayMs
      (Nat.pow_le_pow_right (by norm_num) (by omega))
  · intro hfail
    obtain ⟨e, he⟩ := withRetryGo_error fetch baseDelayMs hfail retries 0
    unfold runWithRetriedFetch withRetry
    rw [he]

/-- C6 witness: a persistent 503 without a retry-after header produces
non-decreasing waits, and a persistent 429 run produces no output file. -/
theorem retry_backoff_monotone_and_abort_witness :
    List.Pairwise (· ≤ ·) (withRetry c6Fn 3 500).2 ∧
    runWithRetriedFetch c6Fetch 3 500 "08 Blocked" = none :=
  ⟨(retry_backoff_monotone_and_abort c6Fn c6Fetch 3 500 "08 Blocked").1
      (fun n e h => by
        injection h with h2
        rw [← h2]),
   (retry_backoff_monotone_and_abort c6Fn c6Fetch 3 500 "08 Blocked").2
      (fun n => ⟨{ status := some 429, retryAfterMs := none }, rfl, rfl⟩)⟩

lemma p0ProcessIssue_throws
    (fetchHist : IssueInput → Except HttpError (List HistoryEntry))
    (cfg : Config) (now : Int) (iss : IssueInput) :
    p0ProcessIssue fetchHist cfg now iss =
      Except.error (P0Error.referenceError "AFFECTED_CUSTOMERS_FIELD_ID") := rfl

lemma p0GetAllIssuesRun_cons
    (fetchHist : IssueInput → Except HttpError (List HistoryEntry))
    (cfg : Config) (now : Int) (iss : IssueInput) (rest : List IssueInput) :
    p0GetAllIssuesRun fetchHist cfg now (iss :: rest) =
      Except.error (P0Error.referenceError "AFFECTED_CUSTOMERS_FIELD_ID") := rfl

lemma p0Main_cons_none
    (fetchHist : IssueInput → Except HttpError (List HistoryEntry))
    (cfg : Config) (now : Int) (iss : IssueInput) (rest : List IssueInput) :
    p0Main fetchHist cfg now (iss :: rest) = none := rfl

/-- C8: a fatal error aborts the run with no CSV written, and a written
CSV implies the whole run succeeded. In `src/unnamed/part_000`, if the
processing of any issue in the list throws — as the line-187
ReferenceError in fact does on every issue, before its changelog fetch —
the run produces no output file at all (no partial CSV); an output file
can only come from a run in which every issue was processed successfully
(which the real program attains only for an empty issue list); and the
`src/index.js` run likewise writes no file when `getAllIssues` ends in an
error. -/
theorem fatal_abort_no_csv
    (fetchHist : IssueInput → Except HttpError (List HistoryEntry))
    (cfg : Config) (now : Int) (issues : List IssueInput)
    (status2 : String) (fetched : Except HttpError (List RowI)) :
    (∀ i ∈ issues, ∀ e, p0ProcessIssue fetchHist cfg now i = Except.error e →
      p0Main fetchHist cfg now issues = none) ∧
    (∀ s, p0Main fetchHist cfg now issues = some s →
      ∃ rows, p0GetAllIssuesRun fetchHist cfg now issues = Except.ok rows ∧
        s = p0CsvString cfg.status2 rows) ∧
    (∀ e, fetched = Except.error e → indexMain status2 fetched = none) := by
  refine ⟨?_, ?_, ?_⟩
  · intro i hi e _
    rcases issues with _ | ⟨j, rest⟩
    · simp at hi
    · exact p0Main_cons_none fetchHist cfg now j rest
  · intro s hs
    unfold p0Main at hs
    rcases hrun : p0GetAllIssuesRun fetchHist cfg now issues with e | rows
    · rw [hrun] at hs
      cases hs
    · rw [hrun] at hs
      refine ⟨rows, rfl, ?_⟩
      injection hs with h2
      exact h2.symm
  · intro e he
    rw [he]
    rfl

/-- C8 witness: a single-issue run aborts at the line-187 throw and writes
nothing; a written file (possible only for the empty issue list) comes from
a successful run; an `src/index.js` run whose fetch errored writes
nothing. -/
theorem fatal_abort_no_csv_witness :
    p0Main c8OkFetch p0Config 0 [issueWithCreated none] = none ∧
    (∃ rows, p0GetAllIssuesRun c8OkFetch p0Config 0 [] = Except.ok rows ∧
      p0CsvString p0Config.status2 [] = p0CsvString p0Config.status2 rows) ∧
    indexMain "In Progress"
      (Except.error { status := some 500, retryAfterMs := none } :
        Except HttpError (List RowI)) = none :=
  ⟨(fatal_abort_no_csv c8OkFetch p0Config 0 [issueWithCreated none]
      "In Progress"
      (Except.error { status := some 500, retryAfterMs := none })).1
      (issueWithCreated none) (List.mem_singleton.mpr rfl)
      (P0Error.referenceError "AFFECTED_CUSTOMERS_FIELD_ID") rfl,
   (fatal_abort_no_csv c8OkFetch p0Config 0 [] "In Progress"
      (Except.error { status := some 500, retryAfterMs := none })).2.1
      (p0CsvString p0Config.status2 []) rfl,
   (fatal_abort_no_csv c8OkFetch p0Config 0 [issueWithCreated none]
      "In Progress"
      (Except.error { status := some 500, retryAfterMs := none })).2.2
      { status := some 500, retryAfterMs := none } rfl⟩

/-- C9: every row emitted by `src/index.js` wraps exactly the Summary field
in double quotes around the every-quote-doubled summary text, with every
other cell the bare rendering of its value and no added quotes, and the
summary `He said "hi"` is emitted as `"He said ""hi"""` in the full row
line. The `src/unnamed/part_000` serializer likewise quotes exactly the
Summary cell of any row it is given — which covers, vacuously, every row
of its emitted CSV: a part_000 run with at least one issue throws at
line 187 and emits no file at all, so no data row is ever emitted. -/
theorem summary_csv_quoting (cfg : Config) (now : Int) (iss : IssueInput)
    (r : RowP) (fetchHist : IssueInput → Except HttpError (List HistoryEntry))
    (rest : List IssueInput) :
    indexCsvCells (indexBuildRow cfg now iss) =
      [ iss.key,
        "\"" ++ escapeQuotes (jsOrStr iss.summary "") ++ "\"",
        iss.statusName.getD "Unknown",
        iss.priorityName.getD "Unknown",
        ostrOrEmpty (indexComputeTimes cfg now iss.created iss.histories).startTime,
        jnumOrEmpty (indexComputeTimes cfg now iss.created iss.histories).backlogDays,
        ostrOrEmpty (indexComputeTimes cfg now iss.created iss.histories).status2Time,
        jnumOrEmpty (indexComputeTimes cfg now iss.created iss.histories).timeSpentMinutes,
        jnumOrEmpty (indexComputeTimes cfg now iss.created iss.histories).timeSpentDays,
        iss.assigneeName.getD "Unassigned",
        jsOrStr iss.affectedCustomers "N/A" ] ∧
    p0CsvCells r =
      [ r.issueKey,
        "\"" ++ r.summary ++ "\"",
        r.status,
        r.priority,
        ostrNullish r.startTime,
        jnumNullish r.backlogDays,
        ostrNullish r.status2Time,
        jnumNullish r.timeSpentMinutes,
        jnumNullish r.timeSpentDays,
        r.assignee ] ∧
    p0Main fetchHist cfg now (iss :: rest) = none ∧
    String.intercalate "," (indexCsvCells (indexBuildRow indexConfig 0 c9Issue)) =
      "K-1,\"He said \"\"hi\"\"\",Unknown,Unknown,,,,,,Unassigned,N/A" := by
  refine ⟨?_, rfl, p0Main_cons_none fetchHist cfg now iss rest, by decide⟩
  have hsummary : (match iss.summary with
      | some s => if s = "" then "" else escapeQuotes s
      | none => "") = escapeQuotes (jsOrStr iss.summary "") := by
    rcases iss.summary with _ | s
    · rfl
    · by_cases hs : s = "" <;> simp [hs, jsOrStr, escapeQuotes, escQ]
  have haffected : (match iss.affectedCustomers with
      | some s => if s = "" then "N/A" else s
      | none => "N/A") = jsOrStr iss.affectedCustomers "N/A" := by
    rcases iss.affectedCustomers with _ | s
    · rfl
    · by_cases hs : s = "" <;> simp [hs, jsOrStr]
  simp [indexBuildRow, indexCsvCells, hsummary, haffected]

/-- C10: in the CSV serialization of `src/index.js`, a present numeric `0`
in any of the three numeric columns renders as the empty string
(indistinguishable from an absent value), whereas the serialization of
`src/unnamed/part_000` renders a present `0` as the character `0`. -/
theorem zero_value_rendering (r : RowI) (r2 : RowP) :
    (r.backlogDays = JNum.num 0 → (indexCsvCells r)[5]? = some "") ∧
    (r.timeSpentMinutes = JNum.num 0 → (indexCsvCells r)[7]? = some "") ∧
    (r.timeSpentDays = JNum.num 0 → (indexCsvCells r)[8]? = some "") ∧
    (r2.backlogDays = JNum.num 0 → (p0CsvCells r2)[5]? = some "0") ∧
    (r2.timeSpentMinutes = JNum.num 0 → (p0CsvCells r2)[7]? = some "0") ∧
    (r2.timeSpentDays = JNum.num 0 → (p0CsvCells r2)[8]? = some "0") := by
  refine ⟨?_, ?_, ?_, ?_, ?_, ?_⟩ <;> intro h <;>
    (simp [indexCsvCells, p0CsvCells, h, jnumOrEmpty, jnumNullish]; try rfl)

/-- C10 witness: a concrete row with all three numeric fields `0` renders
them empty in `src/index.js` and as `0` in `src/unnamed/part_000`. -/
theorem zero_value_rendering_witness :
    (indexCsvCells c10RowI)[5]? = some "" ∧
    (indexCsvCells c10RowI)[7]? = some "" ∧
    (indexCsvCells c10RowI)[8]? = some "" ∧
    (p0CsvCells c10RowP)[5]? = some "0" ∧
    (p0CsvCells c10RowP)[7]? = some "0" ∧
    (p0CsvCells c10RowP)[8]? = some "0" :=
  ⟨(zero_value_rendering c10RowI c10RowP).1 rfl,
   (zero_value_rendering c10RowI c10RowP).2.1 rfl,
   (zero_value_rendering c10RowI c10RowP).2.2.1 rfl,
   (zero_value_rendering c10RowI c10RowP).2.2.2.1 rfl,
   (zero_value_rendering c10RowI c10RowP).2.2.2.2.1 rfl,
   (zero_value_rendering c10RowI c10RowP).2.2.2.2.2 rfl⟩

/-- C7 evaluated at the failing input — an issue whose created date is the
truthy but unparseable string `not-a-date`, in a `src/unnamed/part_000`
run: processing that issue throws the line-187 ReferenceError before the
changelog fetch or any timestamp parsing, and the run writes no output at
all, so the malformed value is neither treated as absent nor rendered as an
empty cell; `src/index.js`, by contrast, raises nothing and renders all
three derived cells empty, exactly as claimed. Additionally, part_000's
dead row-building fragment (`p0BuildRow`, unreachable behind the throw)
would render the backlog cell as `NaN`, not empty: its `backlogDays`,
unlike its time-spent fields, has no `isNaN` guard, and `?? ''` does not
catch `NaN`. -/
theorem malformed_created_behavior :
    p0ProcessIssue c8OkFetch p0Config 0 (issueWithCreated (some "not-a-date")) =
      Except.error (P0Error.referenceError "AFFECTED_CUSTOMERS_FIELD_ID") ∧
    p0Main c8OkFetch p0Config 0 [issueWithCreated (some "not-a-date")] = none ∧
    (indexCsvCells (indexBuildRow indexConfig 0 (issueWithCreated (some "not-a-date"))))[5]? =
      some "" ∧
    (indexCsvCells (indexBuildRow indexConfig 0 (issueWithCreated (some "not-a-date"))))[7]? =
      some "" ∧
    (indexCsvCells (indexBuildRow indexConfig 0 (issueWithCreated (some "not-a-date"))))[8]? =
      some "" ∧
    (p0CsvCells (p0BuildRow p0Config 0 (issueWithCreated (some "not-a-date")) []))[5]? =
      some "NaN" :=
  ⟨rfl, rfl, by decide, by decide, by decide, by decide⟩
